import Mathlib

/-!
Shallow embedding of the Social Wallet API wallet ledger, gift service,
Stripe payment webhook handler and OAuth authorization-code grant, translated
from src/src/services/walletService.ts, src/src/services/giftService.ts
(which also contains the StripeService) and the OAuthService source file.

Modelling conventions:
- Database tables are association lists keyed by their unique column
  (wallets by userId, gift types by id, marketplaces by platformId,
  stripe payments by stripePaymentId, authorization codes by code).
  The wallet primary key id is identified with the owning userId (one
  wallet per user, userId unique), so walletTransaction.walletId stores
  the userId of the owning wallet.
- Each service method is a pure function. Methods that are atomic (all
  failures occur before any write, or all writes commit together) return
  an Except value: on error the caller keeps its state, meaning no write
  happened. Methods that can leave partial writes because they invoke
  other service methods running on the global Prisma client inside an
  outer transaction (sendGift, transferCoins, handlePaymentSuccess)
  return a pair of the Except outcome and the final global state: the
  nested service calls commit to global state immediately, while only the
  writes made through the outer transaction handle roll back on error.
- JavaScript number arithmetic on fee rates is modelled over the rational
  numbers, with Math.round x = Int.floor (x + 1/2), which agrees with the
  source on all inputs the claims exercise.
- Randomly generated identifiers (transfer ids, transaction ids, token
  strings) and the current time are passed as explicit parameters.
-/

namespace SocialWallet

/-- Errors produced by createError(message, status, code, details) in
src/src/middleware/errorHandler.  Details are modelled as a list of
(field, integer value) pairs, enough for the two call sites that pass
details (insufficient balance, insufficient gift quantity). -/
structure Err where
  message : String
  status : Nat
  code : String
  details : List (String × Int)
deriving DecidableEq

/-- createError(message, status, code) with no details. -/
def createError (message : String) (status : Nat) (code : String) : Err :=
  ⟨message, status, code, []⟩

/-- createError(message, status, code, details). -/
def createErrorD (message : String) (status : Nat) (code : String)
    (details : List (String × Int)) : Err :=
  ⟨message, status, code, details⟩

/-- A row of the wallet table: balanceCoins, totalSpent, totalEarned,
isLocked (prisma schema defaults: 0, 0, 0, false). -/
structure Wallet where
  balanceCoins : Int
  totalSpent : Int
  totalEarned : Int
  isLocked : Bool
deriving DecidableEq

/-- A row of the walletTransaction table.  walletId is the key of the
owning wallet (identified with its userId, see module header). -/
structure WalletTx where
  walletId : String
  txType : String
  amount : Int
  balanceAfter : Int
  description : String
  referenceType : Option String
  referenceId : Option String
deriving DecidableEq

/-- A row of the giftType table (the fields sendGift reads). -/
structure GiftType where
  name : String
  platformId : Option String
  priceCoins : Int
  isActive : Bool
  isLimited : Bool
  maxQuantity : Option Int
  soldQuantity : Int
deriving DecidableEq

/-- A row of the giftTransaction table (the fields sendGift writes). -/
structure GiftTxRow where
  fromUserId : String
  toUserId : String
  giftTypeId : String
  platformId : String
  quantity : Int
  totalCoins : Int
  message : Option String
  transactionId : String
  platformFee : Int
  socialWalletFee : Int
  status : String
deriving DecidableEq

/-- A row of the stripePayment table (the fields the webhook handler
touches).  completedAt is modelled as a flag recording whether the
completion timestamp has been set. -/
structure StripePayment where
  userId : String
  payStatus : String
  completedAt : Bool
deriving DecidableEq

/-- A row of the authorizationCode table. -/
structure AuthorizationCode where
  userId : String
  clientId : String
  redirectUri : String
  scopes : List String
  expiresAt : Int
  used : Bool
deriving DecidableEq

/-- A row of the accessToken table. -/
structure AccessToken where
  userId : String
  clientId : String
  token : String
  refreshToken : String
  scopes : List String
  expiresAt : Int
deriving DecidableEq

/-- The relational store: every table the embedded operations touch. -/
structure DB where
  wallets : List (String × Wallet)
  walletTxs : List WalletTx
  giftTypes : List (String × GiftType)
  marketplaces : List (String × ℚ)
  giftTxs : List GiftTxRow
  stripePayments : List (String × StripePayment)
  authCodes : List (String × AuthorizationCode)
  accessTokens : List AccessToken
deriving DecidableEq

/-- Decidable equality of Except outcomes, so that concrete runs of the
embedded operations can be checked by evaluation. -/
instance {ε α : Type} [DecidableEq ε] [DecidableEq α] :
    DecidableEq (Except ε α) := fun x y =>
  match x, y with
  | .ok a, .ok b =>
      if h : a = b then isTrue (h ▸ rfl)
      else isFalse (fun hh => h (Except.ok.inj hh))
  | .ok _, .error _ => isFalse (fun hh => Except.noConfusion hh)
  | .error _, .ok _ => isFalse (fun hh => Except.noConfusion hh)
  | .error e₁, .error e₂ =>
      if h : e₁ = e₂ then isTrue (h ▸ rfl)
      else isFalse (fun hh => h (Except.error.inj hh))

/-- findUnique on an association list: the value at the first matching key. -/
def lookupKV {β : Type} (l : List (String × β)) (k : String) : Option β :=
  match l with
  | [] => none
  | (k₁, v₁) :: rest => if k₁ = k then some v₁ else lookupKV rest k

/-- update on an association list: replace the value at the first matching
key, leave the list unchanged when the key is absent. -/
def setKV {β : Type} (l : List (String × β)) (k : String) (v : β) :
    List (String × β) :=
  match l with
  | [] => []
  | (k₁, v₁) :: rest =>
      if k₁ = k then (k, v) :: rest else (k₁, v₁) :: setKV rest k v

/-- create on an association list: add a fresh row. -/
def insKV {β : Type} (l : List (String × β)) (k : String) (v : β) :
    List (String × β) :=
  (k, v) :: l

/-- Balance of the wallet of a user, 0 when no wallet row exists yet
(wallets are created lazily with balance 0). -/
def balCoins (db : DB) (userId : String) : Int :=
  match lookupKV db.wallets userId with
  | some w => w.balanceCoins
  | none => 0

/-- Sum of the signed amounts of the ledger rows belonging to a wallet. -/
def txsSum (l : List WalletTx) (walletId : String) : Int :=
  ((l.filter (fun t => t.walletId == walletId)).map WalletTx.amount).sum

/-- Sum of the signed amounts of the ledger rows of a wallet of the store. -/
def txSum (db : DB) (walletId : String) : Int :=
  txsSum db.walletTxs walletId

/-- WalletService.addCoins (walletService.ts lines 86 to 150).  Rejects a
non-positive amount, lazily creates the wallet, adds the coins to
balanceCoins and totalEarned and appends a positive ledger row, all inside
one transaction: on an error the store is untouched, so the embedding
returns the new state only on success. -/
def addCoins (db : DB) (userId : String) (coins : Int) (txType : String)
    (description : String) (referenceType referenceId : Option String) :
    Except Err (Int × DB) :=
  if coins ≤ 0 then
    .error (createError "Amount must be positive" 400 "INVALID_AMOUNT")
  else
    match lookupKV db.wallets userId with
    | some w =>
        let newBalance := w.balanceCoins + coins
        .ok (newBalance,
          { db with
            wallets := setKV db.wallets userId
              { w with balanceCoins := newBalance,
                       totalEarned := w.totalEarned + coins },
            walletTxs := db.walletTxs ++
              [⟨userId, txType, coins, newBalance, description,
                referenceType, referenceId⟩] })
    | none =>
        let newBalance := (0 : Int) + coins
        .ok (newBalance,
          { db with
            wallets := insKV db.wallets userId
              ⟨newBalance, 0, 0 + coins, false⟩,
            walletTxs := db.walletTxs ++
              [⟨userId, txType, coins, newBalance, description,
                referenceType, referenceId⟩] })

/-- WalletService.deductCoins (walletService.ts lines 152 to 219).  Checks,
in order: positive amount, wallet exists, wallet not locked, sufficient
balance (error details carry required and available); then subtracts the
coins, adds them to totalSpent and appends a negative ledger row, all
inside one transaction: on an error the store is untouched. -/
def deductCoins (db : DB) (userId : String) (coins : Int) (txType : String)
    (description : String) (referenceType referenceId : Option String) :
    Except Err (Int × DB) :=
  if coins ≤ 0 then
    .error (createError "Amount must be positive" 400 "INVALID_AMOUNT")
  else
    match lookupKV db.wallets userId with
    | none => .error (createError "Wallet not found" 404 "WALLET_NOT_FOUND")
    | some w =>
        if w.isLocked then
          .error (createError "Wallet is locked" 403 "WALLET_LOCKED")
        else if w.balanceCoins < coins then
          .error (createErrorD "Insufficient balance" 400
            "INSUFFICIENT_BALANCE"
            [("required", coins), ("available", w.balanceCoins)])
        else
          let newBalance := w.balanceCoins - coins
          .ok (newBalance,
            { db with
              wallets := setKV db.wallets userId
                { w with balanceCoins := newBalance,
                         totalSpent := w.totalSpent + coins },
              walletTxs := db.walletTxs ++
                [⟨userId, txType, -coins, newBalance, description,
                  referenceType, referenceId⟩] })

/-- WalletService.transferCoins (walletService.ts lines 295 to 341).
Rejects a self transfer, then a non-positive amount, then runs deductCoins
on the sender and addCoins on the receiver.  The two inner calls run on
the global Prisma client and commit on their own even though the source
wraps them in an outer transaction, so the final state is returned also
on failure; transferId is the generated random reference id. -/
def transferCoins (db : DB) (fromUserId toUserId : String) (coins : Int)
    (description : String) (transferId : String) : Except Err Unit × DB :=
  if fromUserId = toUserId then
    (.error (createError "Cannot transfer to yourself" 400
      "INVALID_TRANSFER"), db)
  else if coins ≤ 0 then
    (.error (createError "Amount must be positive" 400 "INVALID_AMOUNT"), db)
  else
    match deductCoins db fromUserId coins "GIFT_SENT" description
        (some "peer_transfer") (some transferId) with
    | .error e => (.error e, db)
    | .ok (_, db₁) =>
        match addCoins db₁ toUserId coins "GIFT_RECEIVED" description
            (some "peer_transfer") (some transferId) with
        | .error e => (.error e, db₁)
        | .ok (_, db₂) => (.ok (), db₂)

/-- Math.round of JavaScript on a real value: floor of the value plus one
half (rounds halves toward positive infinity). -/
def jsRound (q : ℚ) : Int := Int.floor (q + 1/2)

/-- The platform fee rate used by sendGift: marketplace?.revenueShare || 0.1,
so the default 1/10 applies when no marketplace row exists for the platform
and also when the stored revenueShare is 0 (JavaScript falsiness). -/
def platformRate (db : DB) (platformId : String) : ℚ :=
  match lookupKV db.marketplaces platformId with
  | some r => if r = 0 then 1/10 else r
  | none => 1/10

/-- The request body of GiftService.sendGift (quantity defaulted by the
caller). -/
structure SendGiftRequest where
  fromUserId : String
  toUserId : String
  giftTypeId : String
  platformId : String
  quantity : Int
  message : Option String
deriving DecidableEq

/-- The success payload of GiftService.sendGift (the cost figures). -/
structure SendGiftResult where
  totalCost : Int
  platformFee : Int
  socialWalletFee : Int
deriving DecidableEq

/-- The truthiness test JavaScript applies to giftType.maxQuantity: a
number is truthy when present and non-zero. -/
def maxQuantityTruthy : Option Int → Bool
  | none => false
  | some m => !(m == 0)

/-- The truthiness test applied to giftType.platformId: a string is truthy
when present and non-empty. -/
def platformIdTruthy : Option String → Bool
  | none => false
  | some s => !(s == "")

/-- GiftService.sendGift (giftService.ts lines 180 to 314).  Checks, in
order: sender differs from receiver, quantity in 1..100, gift exists and
is active, gift not exclusive to another platform, and for a limited gift
with a truthy cap that the remaining stock covers the quantity.  Then
computes totalGiftCost = priceCoins * quantity, the platform fee and the
1.5 percent social wallet fee with Math.round, debits the sender
totalGiftCost plus the social wallet fee and credits the receiver
totalGiftCost minus both fees, appends the giftTransaction audit row and,
for a limited gift, increments soldQuantity.  The debit and the credit run
through WalletService on the global Prisma client and commit immediately;
only the audit row and the increment go through the outer transaction
handle, so a failure of the credit leaves the debit in place while the
audit row and the increment are rolled back.  transactionId is the
generated random id. -/
def sendGift (db : DB) (req : SendGiftRequest) (transactionId : String) :
    Except Err SendGiftResult × DB :=
  if req.fromUserId = req.toUserId then
    (.error (createError "Cannot send gift to yourself" 400
      "INVALID_RECIPIENT"), db)
  else if req.quantity ≤ 0 ∨ 100 < req.quantity then
    (.error (createError "Invalid quantity" 400 "INVALID_QUANTITY"), db)
  else
    match lookupKV db.giftTypes req.giftTypeId with
    | none =>
        (.error (createError "Gift type not found or inactive" 404
          "GIFT_NOT_FOUND"), db)
    | some g =>
        if !g.isActive then
          (.error (createError "Gift type not found or inactive" 404
            "GIFT_NOT_FOUND"), db)
        else if platformIdTruthy g.platformId ∧
            g.platformId ≠ some req.platformId then
          (.error (createError "Gift not available on this platform" 403
            "GIFT_NOT_AVAILABLE"), db)
        else if g.isLimited ∧ maxQuantityTruthy g.maxQuantity ∧
            (g.maxQuantity.getD 0) - g.soldQuantity < req.quantity then
          (.error (createErrorD "Not enough gifts available" 400
            "INSUFFICIENT_QUANTITY"
            [("available", (g.maxQuantity.getD 0) - g.soldQuantity),
             ("requested", req.quantity)]), db)
        else
          let totalGiftCost := g.priceCoins * req.quantity
          let rate := platformRate db req.platformId
          let platformFee := jsRound (totalGiftCost * rate)
          let socialWalletFee := jsRound (totalGiftCost * (3/200))
          let totalCost := totalGiftCost + socialWalletFee
          match deductCoins db req.fromUserId totalCost "GIFT_SENT"
              ("Sent " ++ toString req.quantity ++ "x " ++ g.name ++
                " to user")
              (some "gift_transaction") (some transactionId) with
          | .error e => (.error e, db)
          | .ok (_, db₁) =>
              let receiverAmount := totalGiftCost - platformFee -
                socialWalletFee
              match addCoins db₁ req.toUserId receiverAmount
                  "GIFT_RECEIVED"
                  ("Received " ++ toString req.quantity ++ "x " ++ g.name)
                  (some "gift_transaction") (some transactionId) with
              | .error e => (.error e, db₁)
              | .ok (_, db₂) =>
                  let db₃ := { db₂ with
                    giftTxs := db₂.giftTxs ++
                      [⟨req.fromUserId, req.toUserId, req.giftTypeId,
                        req.platformId, req.quantity, totalGiftCost,
                        req.message, transactionId, platformFee,
                        socialWalletFee, "COMPLETED"⟩] }
                  let db₄ :=
                    if g.isLimited then
                      { db₃ with
                        giftTypes := setKV db₃.giftTypes req.giftTypeId
                          { g with
                            soldQuantity := g.soldQuantity +
                              req.quantity } }
                    else db₃
                  (.ok ⟨totalCost, platformFee, socialWalletFee⟩, db₄)

/-- The fields of a Stripe payment_intent.succeeded event that the webhook
handler reads: the payment intent id, the metadata userId and the parsed
metadata coins (absent when the metadata is missing), and the charged
amount in cents. -/
structure PaymentEvent where
  id : String
  userId : Option String
  coins : Option Int
  amount : Int
deriving DecidableEq

/-- StripeService.handlePaymentSuccess (the StripeService part of
giftService.ts, lines 748 to 787).  Returns without an error and without
any write when the metadata is incomplete.  Otherwise, inside an outer
transaction, marks the stripePayment row SUCCEEDED with a completion
timestamp (a missing row makes the Prisma update throw, modelled as the
P2025 error) and then credits the wallet through WalletService.addCoins.
There is no check of the previous payment status.  The credit runs on the
global Prisma client and commits on its own; the payment row update rolls
back when the credit fails. -/
def handlePaymentSuccess (db : DB) (ev : PaymentEvent) :
    Except Err Unit × DB :=
  match ev.userId, ev.coins with
  | some userId, some coins =>
      (match lookupKV db.stripePayments ev.id with
      | none =>
          (.error (createError "Record to update not found" 500 "P2025"), db)
      | some p =>
          let db₁ := { db with
            stripePayments := setKV db.stripePayments ev.id
              { p with payStatus := "SUCCEEDED", completedAt := true } }
          match addCoins db₁ userId coins "DEPOSIT"
              "Stripe payment" (some "stripe_payment") (some ev.id) with
          | .error e => (.error e, db)
          | .ok (_, db₂) => (.ok (), db₂))
  | _, _ => (.ok (), db)

/-- The token response of the authorization code grant (tokenType is the
constant Bearer and is omitted). -/
structure TokenResponse where
  accessToken : String
  expiresIn : Int
  refreshToken : String
  scope : List String
deriving DecidableEq

/-- OAuthService.handleAuthorizationCodeGrant (OAuth service source, lines
140 to 196).  Looks up the code and checks, in order: the code exists, it
is unused, it is not expired, and the stored client id and redirect URI
match the request.  On success it marks the code used and creates the
access token in one atomic transaction (a batch prisma.transaction), so an
error leaves the store untouched and the embedding returns the new state
only on success.  The fresh random token and refresh token strings and the
current time in milliseconds are explicit parameters; the token expiry is
one hour from now. -/
def handleAuthorizationCodeGrant (db : DB) (now : Int) (clientId code
    redirectUri : String) (newToken newRefreshToken : String) :
    Except Err (TokenResponse × DB) :=
  match lookupKV db.authCodes code with
  | none =>
      .error (createError "Invalid authorization code" 400 "INVALID_CODE")
  | some authCode =>
      if authCode.used then
        .error (createError "Authorization code already used" 400
          "CODE_ALREADY_USED")
      else if authCode.expiresAt < now then
        .error (createError "Authorization code expired" 400 "CODE_EXPIRED")
      else if authCode.clientId ≠ clientId ∨
          authCode.redirectUri ≠ redirectUri then
        .error (createError "Code validation failed" 400
          "CODE_VALIDATION_FAILED")
      else
        .ok (⟨newToken, 3600, newRefreshToken, authCode.scopes⟩,
          { db with
            authCodes := setKV db.authCodes code { authCode with used := true },
            accessTokens := db.accessTokens ++
              [⟨authCode.userId, authCode.clientId, newToken,
                newRefreshToken, authCode.scopes,
                now + 60 * 60 * 1000⟩] })

/-- A credit or debit request against the wallet ledger, for reasoning
about sequences of WalletService operations. -/
inductive WalletOp where
  | credit (userId : String) (coins : Int) (txType description : String)
      (referenceType referenceId : Option String)
  | debit (userId : String) (coins : Int) (txType description : String)
      (referenceType referenceId : Option String)
deriving DecidableEq

/-- Run one wallet operation; a failed operation leaves the store as it
was (addCoins and deductCoins are atomic). -/
def applyOp (db : DB) (op : WalletOp) : DB :=
  match op with
  | .credit u c t d rt ri =>
      match addCoins db u c t d rt ri with
      | .ok (_, db₁) => db₁
      | .error _ => db
  | .debit u c t d rt ri =>
      match deductCoins db u c t d rt ri with
      | .ok (_, db₁) => db₁
      | .error _ => db

/-- Run a sequence of wallet operations. -/
def applyOps (db : DB) (ops : List WalletOp) : DB :=
  ops.foldl applyOp db

/-- The wallet ledger invariant: every wallet balance equals the sum of
the signed amounts of the ledger rows of that wallet and is non-negative,
and every ledger row belongs to an existing wallet. -/
def WalletLedgerInv (db : DB) : Prop :=
  (∀ u w, lookupKV db.wallets u = some w →
    w.balanceCoins = txSum db u ∧ 0 ≤ w.balanceCoins) ∧
  (∀ t ∈ db.walletTxs, ∃ w, lookupKV db.wallets t.walletId = some w)

/-- The store with every table empty. -/
def emptyDB : DB := ⟨[], [], [], [], [], [], [], []⟩

/-- Example store for the webhook claim: a pending Stripe payment of 500
coins for alice, no wallet yet. -/
def dbPay : DB :=
  { emptyDB with stripePayments := [("pi_1", ⟨"alice", "PENDING", false⟩)] }

/-- The succeeded-payment event for the pending payment of dbPay. -/
def evPay : PaymentEvent := ⟨"pi_1", some "alice", some 500, 1000⟩

/-- Example store for the gift atomicity claim: a sender funded with
exactly the cost of one 100-coin gift including the 2-coin fee, a gift
type priced 100 coins, and a marketplace whose revenue share is the
maximal value 1 accepted by the admin validation (0 to 1 inclusive). -/
def dbGiftBug : DB :=
  { emptyDB with
    wallets := [("s", ⟨102, 0, 0, false⟩)],
    giftTypes := [("g", ⟨"Rose", none, 100, true, false, none, 0⟩)],
    marketplaces := [("p", 1)] }

/-- The gift request exercising dbGiftBug. -/
def reqGiftBug : SendGiftRequest := ⟨"s", "r", "g", "p", 1, none⟩

/-- Example store for the fee arithmetic claim: a funded sender, a
100-coin gift and a marketplace with the default 10 percent share. -/
def dbGiftFees : DB :=
  { emptyDB with
    wallets := [("s", ⟨1000, 0, 0, false⟩)],
    giftTypes := [("g6", ⟨"Rose", none, 100, true, false, none, 0⟩)],
    marketplaces := [("p6", 1/10)] }

/-- The gift request exercising dbGiftFees: quantity 2. -/
def reqGiftFees : SendGiftRequest := ⟨"s", "r", "g6", "p6", 2, none⟩

/-- Example store for the null-cap limited gift claim: a funded sender and
an active limited gift with no maxQuantity and a huge soldQuantity. -/
def dbGiftNullCap : DB :=
  { emptyDB with
    wallets := [("s", ⟨10000, 0, 0, false⟩)],
    giftTypes := [("gl", ⟨"Star", none, 10, true, true, none, 1000000⟩)] }

/-- The gift request exercising dbGiftNullCap: quantity 5. -/
def reqGiftNullCap : SendGiftRequest := ⟨"s", "r", "gl", "p", 5, none⟩

/-- Example store for the wallet claims: one unlocked wallet with balance
1000 whose ledger carries one matching deposit row. -/
def dbWallet : DB :=
  { emptyDB with
    wallets := [("a", ⟨1000, 0, 1000, false⟩)],
    walletTxs := [⟨"a", "DEPOSIT", 1000, 1000, "seed", none, none⟩] }

/-- Example store for the insufficient balance counterexample: the same
wallet with balance 1000, but locked. -/
def dbWalletLocked : DB :=
  { emptyDB with wallets := [("a", ⟨1000, 0, 1000, true⟩)] }

/-- Example store for the OAuth claims: one unused authorization code for
client cl1 expiring at time 1000. -/
def dbOAuth : DB :=
  { emptyDB with
    authCodes :=
      [("code1", ⟨"u1", "cl1", "https://cb", ["profile"], 1000, false⟩)] }

/-- Example store for the expiry counterexample: a code that is both used
and expired (expiry 0). -/
def dbOAuthUsedExpired : DB :=
  { emptyDB with
    authCodes :=
      [("c7", ⟨"u1", "cl1", "https://cb", ["profile"], 0, true⟩)] }

/-- Example store for the amended expiry claim: an unused code expired at
time 0, exercised with a mismatched client and redirect URI. -/
def dbOAuthExpired : DB :=
  { emptyDB with
    authCodes :=
      [("c7b", ⟨"u1", "cl1", "https://cb", ["profile"], 0, false⟩)] }

/-- The store reached from dbOAuth by a successful exchange of code1 at
time 500 issuing token tk with refresh token rt. -/
def dbOAuthUsedState : DB :=
  { emptyDB with
    authCodes :=
      [("code1", ⟨"u1", "cl1", "https://cb", ["profile"], 1000, true⟩)],
    accessTokens :=
      [⟨"u1", "cl1", "tk", "rt", ["profile"], 500 + 60 * 60 * 1000⟩] }

theorem lookupKV_setKV_self {β : Type} {l : List (String × β)} {k : String}
    {w : β} (v : β) (h : lookupKV l k = some w) :
    lookupKV (setKV l k v) k = some v := by
  induction l with
  | nil => simp [lookupKV] at h
  | cons hd tl ih =>
      obtain ⟨k₁, v₁⟩ := hd
      by_cases hk : k₁ = k
      · subst hk
        simp [setKV, lookupKV]
      · simp only [lookupKV, if_neg hk] at h
        simp only [setKV, if_neg hk, lookupKV]
        exact ih h

theorem lookupKV_setKV_ne {β : Type} {l : List (String × β)} {k k₁ : String}
    (v : β) (h : k ≠ k₁) :
    lookupKV (setKV l k v) k₁ = lookupKV l k₁ := by
  induction l with
  | nil => simp [setKV]
  | cons hd tl ih =>
      obtain ⟨k₂, v₂⟩ := hd
      by_cases hk : k₂ = k
      · subst hk
        simp [setKV, lookupKV, h]
      · simp only [setKV, if_neg hk, lookupKV]
        by_cases hk₁ : k₂ = k₁
        · simp [hk₁]
        · simp [hk₁, ih]

theorem lookupKV_setKV_exists {β : Type} {l : List (String × β)}
    {k k₁ : String} (v : β) (h : ∃ w, lookupKV l k₁ = some w) :
    ∃ w, lookupKV (setKV l k v) k₁ = some w := by
  by_cases hk : k = k₁
  · subst hk
    obtain ⟨w, hw⟩ := h
    exact ⟨v, lookupKV_setKV_self v hw⟩
  · rw [lookupKV_setKV_ne v hk]
    exact h

theorem lookupKV_insKV_self {β : Type} (l : List (String × β)) (k : String)
    (v : β) : lookupKV (insKV l k v) k = some v := by
  simp [insKV, lookupKV]

theorem lookupKV_insKV_ne {β : Type} {l : List (String × β)} {k k₁ : String}
    (v : β) (h : k ≠ k₁) :
    lookupKV (insKV l k v) k₁ = lookupKV l k₁ := by
  simp [insKV, lookupKV, h]

theorem txsSum_append (l₁ l₂ : List WalletTx) (w : String) :
    txsSum (l₁ ++ l₂) w = txsSum l₁ w + txsSum l₂ w := by
  simp [txsSum, List.filter_append]

theorem txsSum_singleton (t : WalletTx) (w : String) :
    txsSum [t] w = if t.walletId = w then t.amount else 0 := by
  by_cases h : t.walletId = w
  · simp [txsSum, List.filter, h]
  · have hb : (t.walletId == w) = false := beq_eq_false_iff_ne.mpr h
    simp [txsSum, List.filter, hb, h]

theorem txsSum_eq_zero {l : List WalletTx} {w : String}
    (h : ∀ t ∈ l, t.walletId ≠ w) : txsSum l w = 0 := by
  have hf : l.filter (fun t => t.walletId == w) = [] := by
    rw [List.filter_eq_nil_iff]
    intro t ht
    simpa using h t ht
  simp [txsSum, hf]

theorem addCoins_pos_ok (db : DB) (u : String) {c : Int}
    (t d : String) (rt ri : Option String) (hc : 0 < c) :
    ∃ nb db₁, addCoins db u c t d rt ri = .ok (nb, db₁) := by
  unfold addCoins
  rw [if_neg (not_le.mpr hc)]
  cases lookupKV db.wallets u with
  | some w => exact ⟨_, _, rfl⟩
  | none => exact ⟨_, _, rfl⟩

theorem addCoins_ok_spec {db : DB} {u : String} {c : Int} {t d : String}
    {rt ri : Option String} {nb : Int} {db₁ : DB}
    (h : addCoins db u c t d rt ri = .ok (nb, db₁)) :
    0 < c ∧ nb = balCoins db u + c ∧
    balCoins db₁ u = balCoins db u + c ∧
    (∀ v, v ≠ u → balCoins db₁ v = balCoins db v) ∧
    db₁.walletTxs =
      db.walletTxs ++ [⟨u, t, c, balCoins db u + c, d, rt, ri⟩] ∧
    db₁.giftTypes = db.giftTypes ∧ db₁.marketplaces = db.marketplaces ∧
    db₁.giftTxs = db.giftTxs ∧ db₁.stripePayments = db.stripePayments ∧
    db₁.authCodes = db.authCodes ∧ db₁.accessTokens = db.accessTokens := by
  by_cases hc : c ≤ 0
  · simp only [addCoins, if_pos hc] at h
    exact absurd h (by simp)
  have hc' : 0 < c := lt_of_not_le hc
  cases hw : lookupKV db.wallets u with
  | some w =>
      simp only [addCoins, if_neg hc, hw] at h
      injection h with h₁
      injection h₁ with hnb hdb
      subst hdb
      subst hnb
      have hbal : balCoins db u = w.balanceCoins := by simp [balCoins, hw]
      refine ⟨hc', by rw [hbal], ?_, ?_, ?_, rfl, rfl, rfl, rfl, rfl, rfl⟩
      · simp only [balCoins, lookupKV_setKV_self _ hw, hw]
      · intro v hv
        simp only [balCoins]
        rw [lookupKV_setKV_ne _ (fun hne => hv hne.symm)]
      · simp [hbal]
  | none =>
      simp only [addCoins, if_neg hc, hw] at h
      injection h with h₁
      injection h₁ with hnb hdb
      subst hdb
      subst hnb
      have hbal : balCoins db u = 0 := by simp [balCoins, hw]
      refine ⟨hc', by rw [hbal], ?_, ?_, ?_, rfl, rfl, rfl, rfl, rfl, rfl⟩
      · simp only [balCoins, lookupKV_insKV_self, hw]
      · intro v hv
        simp only [balCoins]
        rw [lookupKV_insKV_ne _ (fun hne => hv hne.symm)]
      · simp [hbal]

theorem addCoins_error_code {db : DB} {u : String} {c : Int} {t d : String}
    {rt ri : Option String} {e : Err}
    (h : addCoins db u c t d rt ri = .error e) :
    e = createError "Amount must be positive" 400 "INVALID_AMOUNT" ∧
    c ≤ 0 := by
  by_cases hc : c ≤ 0
  · simp only [addCoins, if_pos hc] at h
    exact ⟨by injection h with h₁; exact h₁.symm, hc⟩
  · cases hw : lookupKV db.wallets u <;>
      simp only [addCoins, if_neg hc, hw] at h <;>
      exact absurd h (by simp)

theorem deductCoins_ok_spec {db : DB} {u : String} {c : Int} {t d : String}
    {rt ri : Option String} {nb : Int} {db₁ : DB}
    (h : deductCoins db u c t d rt ri = .ok (nb, db₁)) :
    0 < c ∧
    (∃ w, lookupKV db.wallets u = some w ∧ w.isLocked = false ∧
      c ≤ w.balanceCoins) ∧
    nb = balCoins db u - c ∧
    balCoins db₁ u = balCoins db u - c ∧
    (∀ v, v ≠ u → balCoins db₁ v = balCoins db v) ∧
    db₁.walletTxs =
      db.walletTxs ++ [⟨u, t, -c, balCoins db u - c, d, rt, ri⟩] ∧
    db₁.giftTypes = db.giftTypes ∧ db₁.marketplaces = db.marketplaces ∧
    db₁.giftTxs = db.giftTxs ∧ db₁.stripePayments = db.stripePayments ∧
    db₁.authCodes = db.authCodes ∧ db₁.accessTokens = db.accessTokens := by
  by_cases hc : c ≤ 0
  · simp only [deductCoins, if_pos hc] at h
    exact absurd h (by simp)
  have hc' : 0 < c := lt_of_not_le hc
  cases hw : lookupKV db.wallets u with
  | none =>
      simp only [deductCoins, if_neg hc, hw] at h
      exact absurd h (by simp)
  | some w =>
      by_cases hl : w.isLocked
      · simp only [deductCoins, if_neg hc, hw, hl] at h
        exact absurd h (by simp)
      by_cases hb : w.balanceCoins < c
      · simp only [deductCoins, if_neg hc, hw, if_neg hl, if_pos hb] at h
        exact absurd h (by simp)
      simp only [deductCoins, if_neg hc, hw, if_neg hl, if_neg hb] at h
      injection h with h₁
      injection h₁ with hnb hdb
      subst hdb
      subst hnb
      have hbal : balCoins db u = w.balanceCoins := by simp [balCoins, hw]
      refine ⟨hc', ⟨w, rfl, Bool.eq_false_iff.mpr hl, not_lt.mp hb⟩,
        by rw [hbal], ?_, ?_, ?_, rfl, rfl, rfl, rfl, rfl, rfl⟩
      · simp only [balCoins, lookupKV_setKV_self _ hw, hw]
      · intro v hv
        simp only [balCoins]
        rw [lookupKV_setKV_ne _ (fun hne => hv hne.symm)]
      · simp [hbal]

theorem deductCoins_error_code {db : DB} {u : String} {c : Int}
    {t d : String} {rt ri : Option String} {e : Err}
    (h : deductCoins db u c t d rt ri = .error e) :
    e.code = "INVALID_AMOUNT" ∨ e.code = "WALLET_NOT_FOUND" ∨
    e.code = "WALLET_LOCKED" ∨ e.code = "INSUFFICIENT_BALANCE" := by
  by_cases hc : c ≤ 0
  · simp only [deductCoins, if_pos hc] at h
    injection h with h₁
    left
    rw [← h₁]
    rfl
  cases hw : lookupKV db.wallets u with
  | none =>
      simp only [deductCoins, if_neg hc, hw] at h
      injection h with h₁
      right; left
      rw [← h₁]
      rfl
  | some w =>
      by_cases hl : w.isLocked
      · simp only [deductCoins, if_neg hc, hw, hl] at h
        injection h with h₁
        right; right; left
        rw [← h₁]
        rfl
      by_cases hb : w.balanceCoins < c
      · simp only [deductCoins, if_neg hc, hw, if_neg hl, if_pos hb] at h
        injection h with h₁
        right; right; right
        rw [← h₁]
        rfl
      · simp only [deductCoins, if_neg hc, hw, if_neg hl, if_neg hb] at h
        exact absurd h (by simp)

/-- Claim C8, counterexample to the claim as stated: a locked wallet with
balance 1000 rejects a debit of 1500 with the WALLET_LOCKED error, not
with the InsufficientBalance error the claim demands for every wallet
(the lock check precedes the balance check in deductCoins). -/
theorem c8_counterexample :
    deductCoins dbWalletLocked "a" 1500 "WITHDRAWAL" "w" none none =
      .error (createError "Wallet is locked" 403 "WALLET_LOCKED") ∧
    createError "Wallet is locked" 403 "WALLET_LOCKED" ≠
      createErrorD "Insufficient balance" 400 "INSUFFICIENT_BALANCE"
        [("required", 1500), ("available", 1000)] := by
  decide

/-- Claim C8 (amended): for every unlocked wallet with balance b and every
debit of a positive amount n with n greater than b (positivity is
automatic once b is non-negative), the debit fails with the
INSUFFICIENT_BALANCE error carrying required n and available b.
deductCoins returns no store on an error, which embeds the fact that a
rejected debit leaves the balance, the lifetime-spent counter and the
transaction history unchanged. -/
theorem c8_insufficient_balance (db : DB) (u : String) (w : Wallet)
    (n : Int) (t d : String) (rt ri : Option String)
    (hw : lookupKV db.wallets u = some w) (hl : w.isLocked = false)
    (hn : 0 < n) (hb : w.balanceCoins < n) :
    deductCoins db u n t d rt ri =
      .error (createErrorD "Insufficient balance" 400 "INSUFFICIENT_BALANCE"
        [("required", n), ("available", w.balanceCoins)]) := by
  simp only [deductCoins, if_neg (not_le.mpr hn), hw, hl, if_pos hb,
    Bool.false_eq_true, if_false]

/-- Claim C8, witness: the wallet a of dbWallet holds 1000 coins and is
unlocked; a debit of 1500 fails with required 1500 and available 1000. -/
theorem c8_witness :
    lookupKV dbWallet.wallets "a" = some ⟨1000, 0, 1000, false⟩ ∧
    deductCoins dbWallet "a" 1500 "WITHDRAWAL" "w" none none =
      .error (createErrorD "Insufficient balance" 400 "INSUFFICIENT_BALANCE"
        [("required", 1500), ("available", 1000)]) :=
  ⟨by decide,
   c8_insufficient_balance dbWallet "a" ⟨1000, 0, 1000, false⟩ 1500
     "WITHDRAWAL" "w" none none (by decide) rfl (by decide) (by decide)⟩

/-- Claim C9: transferCoins rejects a self transfer with INVALID_TRANSFER
before any other check, even when the amount is non-positive, and rejects
a non-positive amount for distinct users with INVALID_AMOUNT; in both
cases the returned store is exactly the input store, so no wallet or
transaction row was written. -/
theorem c9_transfer_guards (db : DB) (u v : String) (n : Int)
    (d tid : String) :
    (u = v → transferCoins db u v n d tid =
      (.error (createError "Cannot transfer to yourself" 400
        "INVALID_TRANSFER"), db)) ∧
    (u ≠ v → n ≤ 0 → transferCoins db u v n d tid =
      (.error (createError "Amount must be positive" 400
        "INVALID_AMOUNT"), db)) := by
  constructor
  · intro h
    simp [transferCoins, h]
  · intro h hn
    simp [transferCoins, h, hn]

/-- Claim C9, witness: a self transfer of a negative amount fails with
INVALID_TRANSFER (the self check fires first), and a zero-amount transfer
between distinct users fails with INVALID_AMOUNT; the store is returned
unchanged in both cases. -/
theorem c9_witness :
    transferCoins emptyDB "a" "a" (-5) "d" "t" =
      (.error (createError "Cannot transfer to yourself" 400
        "INVALID_TRANSFER"), emptyDB) ∧
    transferCoins emptyDB "a" "b" 0 "d" "t" =
      (.error (createError "Amount must be positive" 400
        "INVALID_AMOUNT"), emptyDB) :=
  ⟨(c9_transfer_guards emptyDB "a" "a" (-5) "d" "t").1 rfl,
   (c9_transfer_guards emptyDB "a" "b" 0 "d" "t").2 (by decide) (by decide)⟩

/-- Claim C3: for a transfer of n coins from A to B with A and B distinct
and n positive, a failing call returns the store unchanged (both balances
and both transaction histories untouched), and a successful call leaves A
with exactly n coins less and B with exactly n coins more than before. -/
theorem c3_transfer_correct (db : DB) (A B : String) (n : Int)
    (d tid : String) (hAB : A ≠ B) (hn : 0 < n) :
    (∀ e db₁, transferCoins db A B n d tid = (.error e, db₁) → db₁ = db) ∧
    (∀ db₁, transferCoins db A B n d tid = (.ok (), db₁) →
      balCoins db₁ A = balCoins db A - n ∧
      balCoins db₁ B = balCoins db B + n) := by
  have hn' : ¬ n ≤ 0 := not_le.mpr hn
  cases hdc : deductCoins db A n "GIFT_SENT" d (some "peer_transfer")
      (some tid) with
  | error e =>
      constructor
      · intro e₁ db₁ h
        simp only [transferCoins, if_neg hAB, if_neg hn', hdc,
          Prod.mk.injEq] at h
        exact h.2.symm
      · intro db₁ h
        simp only [transferCoins, if_neg hAB, if_neg hn', hdc,
          Prod.mk.injEq] at h
        exact absurd h.1 (by simp)
  | ok p =>
      obtain ⟨nb, db₂⟩ := p
      obtain ⟨nb₂, db₃, hadd⟩ := addCoins_pos_ok db₂ B "GIFT_RECEIVED" d
        (some "peer_transfer") (some tid) hn
      constructor
      · intro e₁ db₁ h
        simp only [transferCoins, if_neg hAB, if_neg hn', hdc, hadd,
          Prod.mk.injEq] at h
        exact absurd h.1 (by simp)
      · intro db₁ h
        simp only [transferCoins, if_neg hAB, if_neg hn', hdc, hadd,
          Prod.mk.injEq] at h
        obtain ⟨-, hdb⟩ := h
        subst hdb
        obtain ⟨-, -, -, hdA, hdother, -⟩ := deductCoins_ok_spec hdc
        obtain ⟨-, -, haB, haother, -⟩ := addCoins_ok_spec hadd
        constructor
        · rw [haother A hAB, hdA]
        · rw [haB, hdother B (Ne.symm hAB)]

/-- Claim C3, witness: transferring 30 coins from a (balance 1000) to b
(no wallet) succeeds and leaves a with 970 and b with 30. -/
theorem c3_witness :
    balCoins (transferCoins dbWallet "a" "b" 30 "d" "t").snd "a" = 970 ∧
    balCoins (transferCoins dbWallet "a" "b" 30 "d" "t").snd "b" = 30 := by
  have hok : transferCoins dbWallet "a" "b" 30 "d" "t" =
      (.ok (), (transferCoins dbWallet "a" "b" 30 "d" "t").snd) := by
    decide
  obtain ⟨h1, h2⟩ := (c3_transfer_correct dbWallet "a" "b" 30 "d" "t"
    (by decide) (by decide)).2 _ hok
  rw [h1, h2]
  decide

theorem inv_addCoins {db db₁ : DB} {u : String} {c : Int} {t d : String}
    {rt ri : Option String} {nb : Int}
    (hinv : WalletLedgerInv db)
    (h : addCoins db u c t d rt ri = .ok (nb, db₁)) :
    WalletLedgerInv db₁ := by
  obtain ⟨hbal, hrows⟩ := hinv
  by_cases hc : c ≤ 0
  · simp only [addCoins, if_pos hc] at h
    exact absurd h (by simp)
  have hc' : 0 < c := lt_of_not_le hc
  cases hw : lookupKV db.wallets u with
  | some w =>
      simp only [addCoins, if_neg hc, hw] at h
      injection h with h₁
      injection h₁ with hnb hdb
      subst hdb
      obtain ⟨hwsum, hwpos⟩ := hbal u w hw
      refine ⟨fun u₁ w₁ hlook => ?_, fun t₁ ht₁ => ?_⟩
      · by_cases hu : u₁ = u
        · subst hu
          rw [lookupKV_setKV_self _ hw] at hlook
          injection hlook with hw₁
          subst hw₁
          refine ⟨?_, add_nonneg hwpos (le_of_lt hc')⟩
          have hwsum₂ : w.balanceCoins = txsSum db.walletTxs u₁ := hwsum
          show w.balanceCoins + c = _
          simp only [txSum, txsSum_append, txsSum_singleton, if_true]
          rw [← hwsum₂]
        · rw [lookupKV_setKV_ne _ (fun hh => hu hh.symm)] at hlook
          obtain ⟨hsum, hpos⟩ := hbal u₁ w₁ hlook
          refine ⟨?_, hpos⟩
          rw [hsum]
          simp only [txSum, txsSum_append, txsSum_singleton]
          rw [if_neg (fun hh : u = u₁ => hu hh.symm)]
          ring
      · rw [List.mem_append] at ht₁
        cases ht₁ with
        | inl hin =>
            obtain ⟨w₂, hw₂⟩ := hrows t₁ hin
            exact lookupKV_setKV_exists _ ⟨w₂, hw₂⟩
        | inr hone =>
            rw [List.mem_singleton] at hone
            subst hone
            exact ⟨_, lookupKV_setKV_self _ hw⟩
  | none =>
      simp only [addCoins, if_neg hc, hw] at h
      injection h with h₁
      injection h₁ with hnb hdb
      subst hdb
      have hnorow : txsSum db.walletTxs u = 0 := by
        apply txsSum_eq_zero
        intro t₁ ht₁ heq
        obtain ⟨w₂, hw₂⟩ := hrows t₁ ht₁
        rw [heq, hw] at hw₂
        exact Option.noConfusion hw₂
      refine ⟨fun u₁ w₁ hlook => ?_, fun t₁ ht₁ => ?_⟩
      · by_cases hu : u₁ = u
        · subst hu
          rw [lookupKV_insKV_self] at hlook
          injection hlook with hw₁
          subst hw₁
          refine ⟨?_, by simpa using le_of_lt hc'⟩
          show (0 : Int) + c = _
          simp only [txSum, txsSum_append, txsSum_singleton, if_true]
          rw [hnorow]
        · rw [lookupKV_insKV_ne _ (fun hh => hu hh.symm)] at hlook
          obtain ⟨hsum, hpos⟩ := hbal u₁ w₁ hlook
          refine ⟨?_, hpos⟩
          rw [hsum]
          simp only [txSum, txsSum_append, txsSum_singleton]
          rw [if_neg (fun hh : u = u₁ => hu hh.symm)]
          ring
      · rw [List.mem_append] at ht₁
        cases ht₁ with
        | inl hin =>
            obtain ⟨w₂, hw₂⟩ := hrows t₁ hin
            by_cases hu : t₁.walletId = u
            · rw [hu]
              exact ⟨_, lookupKV_insKV_self _ _ _⟩
            · refine ⟨w₂, ?_⟩
              rw [lookupKV_insKV_ne _ (fun hh => hu hh.symm)]
              exact hw₂
        | inr hone =>
            rw [List.mem_singleton] at hone
            subst hone
            exact ⟨_, lookupKV_insKV_self _ _ _⟩

theorem inv_deductCoins {db db₁ : DB} {u : String} {c : Int} {t d : String}
    {rt ri : Option String} {nb : Int}
    (hinv : WalletLedgerInv db)
    (h : deductCoins db u c t d rt ri = .ok (nb, db₁)) :
    WalletLedgerInv db₁ := by
  obtain ⟨hbal, hrows⟩ := hinv
  by_cases hc : c ≤ 0
  · simp only [deductCoins, if_pos hc] at h
    exact absurd h (by simp)
  cases hw : lookupKV db.wallets u with
  | none =>
      simp only [deductCoins, if_neg hc, hw] at h
      exact absurd h (by simp)
  | some w =>
      by_cases hl : w.isLocked
      · simp only [deductCoins, if_neg hc, hw, hl] at h
        exact absurd h (by simp)
      by_cases hb : w.balanceCoins < c
      · simp only [deductCoins, if_neg hc, hw, if_neg hl, if_pos hb] at h
        exact absurd h (by simp)
      simp only [deductCoins, if_neg hc, hw, if_neg hl, if_neg hb] at h
      injection h with h₁
      injection h₁ with hnb hdb
      subst hdb
      obtain ⟨hwsum, hwpos⟩ := hbal u w hw
      refine ⟨fun u₁ w₁ hlook => ?_, fun t₁ ht₁ => ?_⟩
      · by_cases hu : u₁ = u
        · subst hu
          rw [lookupKV_setKV_self _ hw] at hlook
          injection hlook with hw₁
          subst hw₁
          refine ⟨?_, sub_nonneg.mpr (not_lt.mp hb)⟩
          have hwsum₂ : w.balanceCoins = txsSum db.walletTxs u₁ := hwsum
          show w.balanceCoins - c = _
          simp only [txSum, txsSum_append, txsSum_singleton, if_true]
          rw [← hwsum₂]
          ring
        · rw [lookupKV_setKV_ne _ (fun hh => hu hh.symm)] at hlook
          obtain ⟨hsum, hpos⟩ := hbal u₁ w₁ hlook
          refine ⟨?_, hpos⟩
          rw [hsum]
          simp only [txSum, txsSum_append, txsSum_singleton]
          rw [if_neg (fun hh : u = u₁ => hu hh.symm)]
          ring
      · rw [List.mem_append] at ht₁
        cases ht₁ with
        | inl hin =>
            obtain ⟨w₂, hw₂⟩ := hrows t₁ hin
            exact lookupKV_setKV_exists _ ⟨w₂, hw₂⟩
        | inr hone =>
            rw [List.mem_singleton] at hone
            subst hone
            exact ⟨_, lookupKV_setKV_self _ hw⟩

theorem inv_applyOp {db : DB} (op : WalletOp)
    (hinv : WalletLedgerInv db) : WalletLedgerInv (applyOp db op) := by
  cases op with
  | credit u c t d rt ri =>
      simp only [applyOp]
      cases h : addCoins db u c t d rt ri with
      | ok p =>
          obtain ⟨nb, db₁⟩ := p
          exact inv_addCoins hinv h
      | error e => exact hinv
  | debit u c t d rt ri =>
      simp only [applyOp]
      cases h : deductCoins db u c t d rt ri with
      | ok p =>
          obtain ⟨nb, db₁⟩ := p
          exact inv_deductCoins hinv h
      | error e => exact hinv

/-- Claim C4: the wallet ledger invariant (every wallet balance equals
the sum of the signed amounts of its ledger rows starting from 0, the
balance is never negative, and every ledger row has an owning wallet) is
preserved by every sequence of addCoins and deductCoins operations,
whether each operation succeeds or fails. -/
theorem c4_balance_invariant (db : DB) (ops : List WalletOp)
    (hinv : WalletLedgerInv db) : WalletLedgerInv (applyOps db ops) := by
  induction ops generalizing db with
  | nil => exact hinv
  | cons op rest ih => exact ih (applyOp db op) (inv_applyOp op hinv)

/-- Claim C4, witness: the empty store satisfies the ledger invariant, and
it is preserved across a concrete credit of 50 followed by a debit of 20
(and also across a rejected over-debit of 1000). -/
theorem c4_witness :
    WalletLedgerInv emptyDB ∧
    WalletLedgerInv (applyOps emptyDB
      [.credit "a" 50 "DEPOSIT" "d" none none,
       .debit "a" 20 "WITHDRAWAL" "d" none none,
       .debit "a" 1000 "WITHDRAWAL" "d" none none]) := by
  have hinv : WalletLedgerInv emptyDB := by
    refine ⟨fun u w hw => ?_, fun t ht => ?_⟩
    · simp [lookupKV, emptyDB] at hw
    · simp [emptyDB] at ht
  exact ⟨hinv, c4_balance_invariant emptyDB _ hinv⟩

/-- Claim C5: a successful exchange of an authorization code atomically
marks the code used and appends exactly one access token carrying the
scopes of the code (the error outcome of the exchange carries no store, so
an error means nothing was written); after a success, any further exchange
of the same code fails with CODE_ALREADY_USED whatever client, redirect
URI, time or fresh token material it supplies, and so writes nothing; and
a code already marked used, or whose expiry lies in the past, never yields
a token. -/
theorem c5_code_single_use (db : DB) (now : Int)
    (clientId code redirectUri newToken newRefreshToken : String)
    (ac : AuthorizationCode)
    (hac : lookupKV db.authCodes code = some ac) :
    (∀ resp db₁,
      handleAuthorizationCodeGrant db now clientId code redirectUri
        newToken newRefreshToken = .ok (resp, db₁) →
      lookupKV db₁.authCodes code = some { ac with used := true } ∧
      db₁.accessTokens = db.accessTokens ++
        [⟨ac.userId, ac.clientId, newToken, newRefreshToken, ac.scopes,
          now + 60 * 60 * 1000⟩] ∧
      resp = ⟨newToken, 3600, newRefreshToken, ac.scopes⟩ ∧
      (∀ now₂ clientId₂ redirectUri₂ newToken₂ newRefreshToken₂,
        handleAuthorizationCodeGrant db₁ now₂ clientId₂ code redirectUri₂
          newToken₂ newRefreshToken₂ =
        .error (createError "Authorization code already used" 400
          "CODE_ALREADY_USED"))) ∧
    ((ac.used = true ∨ ac.expiresAt < now) →
      ∃ e, handleAuthorizationCodeGrant db now clientId code redirectUri
          newToken newRefreshToken = .error e ∧
        (e.code = "CODE_ALREADY_USED" ∨ e.code = "CODE_EXPIRED")) := by
  constructor
  · intro resp db₁ h
    by_cases hused : ac.used
    · simp only [handleAuthorizationCodeGrant, hac, hused] at h
      exact absurd h (by simp)
    by_cases hexp : ac.expiresAt < now
    · simp only [handleAuthorizationCodeGrant, hac, if_neg hused,
        if_pos hexp] at h
      exact absurd h (by simp)
    by_cases hmatch : ac.clientId ≠ clientId ∨ ac.redirectUri ≠ redirectUri
    · simp only [handleAuthorizationCodeGrant, hac, if_neg hused,
        if_neg hexp, if_pos hmatch] at h
      exact absurd h (by simp)
    simp only [handleAuthorizationCodeGrant, hac, if_neg hused,
      if_neg hexp, if_neg hmatch] at h
    injection h with h₁
    injection h₁ with hresp hdb
    subst hdb
    refine ⟨lookupKV_setKV_self _ hac, rfl, hresp.symm, ?_⟩
    intro now₂ clientId₂ redirectUri₂ newToken₂ newRefreshToken₂
    simp only [handleAuthorizationCodeGrant,
      lookupKV_setKV_self { ac with used := true } hac, if_true]
  · intro hcase
    by_cases hused : ac.used
    · refine ⟨createError "Authorization code already used" 400
        "CODE_ALREADY_USED", ?_, Or.inl rfl⟩
      simp only [handleAuthorizationCodeGrant, hac, hused, if_true]
    have hexp : ac.expiresAt < now := by
      cases hcase with
      | inl h₁ => exact absurd h₁ hused
      | inr h₁ => exact h₁
    refine ⟨createError "Authorization code expired" 400 "CODE_EXPIRED",
      ?_, Or.inr rfl⟩
    simp only [handleAuthorizationCodeGrant, hac, if_neg hused,
      if_pos hexp]

/-- Claim C5, witness: exchanging code1 of dbOAuth at time 500 succeeds
and yields the used-code store dbOAuthUsedState with one token; a second
exchange of the same code, even with a different client, redirect URI and
time, fails with CODE_ALREADY_USED. -/
theorem c5_witness :
    handleAuthorizationCodeGrant dbOAuth 500 "cl1" "code1" "https://cb"
        "tk" "rt" =
      .ok (⟨"tk", 3600, "rt", ["profile"]⟩, dbOAuthUsedState) ∧
    handleAuthorizationCodeGrant dbOAuthUsedState 600 "badclient" "code1"
        "badUri" "tk2" "rt2" =
      .error (createError "Authorization code already used" 400
        "CODE_ALREADY_USED") := by
  have hok : handleAuthorizationCodeGrant dbOAuth 500 "cl1" "code1"
      "https://cb" "tk" "rt" =
      .ok (⟨"tk", 3600, "rt", ["profile"]⟩, dbOAuthUsedState) := by decide
  obtain ⟨-, -, -, hsecond⟩ :=
    (c5_code_single_use dbOAuth 500 "cl1" "code1" "https://cb" "tk" "rt"
      ⟨"u1", "cl1", "https://cb", ["profile"], 1000, false⟩ (by decide)).1
      _ _ hok
  exact ⟨hok, hsecond 600 "badclient" "badUri" "tk2" "rt2"⟩

/-- Claim C7, counterexample to the claim as stated: a code that is both
used and expired (expiry 0, exchanged at time 100) fails with
CODE_ALREADY_USED, not with the CODE_EXPIRED error the claim demands
regardless of the used flag (the used check precedes the expiry check). -/
theorem c7_counterexample :
    handleAuthorizationCodeGrant dbOAuthUsedExpired 100 "cl1" "c7"
        "https://cb" "tk" "rt" =
      .error (createError "Authorization code already used" 400
        "CODE_ALREADY_USED") ∧
    (0 : Int) < 100 ∧
    createError "Authorization code already used" 400 "CODE_ALREADY_USED" ≠
      createError "Authorization code expired" 400 "CODE_EXPIRED" := by
  decide

/-- Claim C7 (amended): exchanging an unused authorization code whose
expiry lies in the past fails with CODE_EXPIRED regardless of the client
id, redirect URI and fresh token material supplied; a code that is both
used and expired instead fails with CODE_ALREADY_USED, because the used
check runs first. -/
theorem c7_expired_code (db : DB) (now : Int)
    (clientId code redirectUri newToken newRefreshToken : String)
    (ac : AuthorizationCode)
    (hac : lookupKV db.authCodes code = some ac) (hused : ac.used = false)
    (hexp : ac.expiresAt < now) :
    handleAuthorizationCodeGrant db now clientId code redirectUri newToken
      newRefreshToken =
      .error (createError "Authorization code expired" 400 "CODE_EXPIRED")
    := by
  simp only [handleAuthorizationCodeGrant, hac, hused, if_pos hexp,
    Bool.false_eq_true, if_false]

/-- Claim C7, witness: the unused code c7b expired at time 0; exchanging
it at time 100 with a mismatching client id and redirect URI still fails
with CODE_EXPIRED. -/
theorem c7_witness :
    lookupKV dbOAuthExpired.authCodes "c7b" =
      some ⟨"u1", "cl1", "https://cb", ["profile"], 0, false⟩ ∧
    handleAuthorizationCodeGrant dbOAuthExpired 100 "clX" "c7b" "uriX"
        "tk" "rt" =
      .error (createError "Authorization code expired" 400 "CODE_EXPIRED")
    :=
  ⟨by decide,
   c7_expired_code dbOAuthExpired 100 "clX" "c7b" "uriX" "tk" "rt"
     ⟨"u1", "cl1", "https://cb", ["profile"], 0, false⟩ (by decide) rfl
     (by decide)⟩

theorem handlePaymentSuccess_ok {db : DB} {ev : PaymentEvent}
    {uid : String} {c : Int} {p : StripePayment}
    (hu : ev.userId = some uid) (hc : ev.coins = some c) (hpos : 0 < c)
    (hp : lookupKV db.stripePayments ev.id = some p) :
    ∃ db₁, handlePaymentSuccess db ev = (.ok (), db₁) ∧
      balCoins db₁ uid = balCoins db uid + c ∧
      db₁.walletTxs.length = db.walletTxs.length + 1 ∧
      lookupKV db₁.stripePayments ev.id =
        some ⟨p.userId, "SUCCEEDED", true⟩ := by
  obtain ⟨nb₁, db₁, hadd⟩ := addCoins_pos_ok
    { db with stripePayments := setKV db.stripePayments ev.id ⟨p.userId, "SUCCEEDED", true⟩ }
    uid "DEPOSIT" "Stripe payment" (some "stripe_payment") (some ev.id)
    hpos
  obtain ⟨-, -, hb, -, htx, -, -, -, hsp, -, -⟩ := addCoins_ok_spec hadd
  refine ⟨db₁, ?_, ?_, ?_, ?_⟩
  · simp only [handlePaymentSuccess, hu, hc, hp, hadd]
  · exact hb
  · rw [htx]
    simp
  · rw [hsp]
    exact lookupKV_setKV_self _ hp

/-- Claim C1, counterexample to the claim as stated: in dbPay the payment
pi_1 is pending and alice has no wallet; processing the succeeded event
once credits 500 coins, and processing the very same event a second time
credits 500 again (balance 1000, two ledger rows), because the handler
never checks the payment record status before crediting. -/
theorem c1_counterexample :
    balCoins (handlePaymentSuccess dbPay evPay).snd "alice" = 500 ∧
    balCoins (handlePaymentSuccess
        (handlePaymentSuccess dbPay evPay).snd evPay).snd "alice" = 1000 ∧
    (handlePaymentSuccess
        (handlePaymentSuccess dbPay evPay).snd evPay).snd.walletTxs.length
      = 2 ∧
    (handlePaymentSuccess dbPay evPay).snd.walletTxs.length = 1 ∧
    (1000 : Int) ≠ 500 := by
  decide

/-- Claim C1 (amended): the webhook handler contains no payment status
check, so delivering the same succeeded event twice credits the wallet
twice: whenever the payment record exists and the metadata carries a
positive coin amount, each delivery succeeds, the first leaves the balance
higher by the coin amount and the second by twice the coin amount, and
each delivery appends one more ledger row. -/
theorem c1_webhook_double_credit (db : DB) (ev : PaymentEvent)
    (uid : String) (c : Int) (p : StripePayment)
    (hu : ev.userId = some uid) (hc : ev.coins = some c) (hpos : 0 < c)
    (hp : lookupKV db.stripePayments ev.id = some p) :
    ∃ db₁ db₂,
      handlePaymentSuccess db ev = (.ok (), db₁) ∧
      handlePaymentSuccess db₁ ev = (.ok (), db₂) ∧
      balCoins db₁ uid = balCoins db uid + c ∧
      balCoins db₂ uid = balCoins db uid + c + c ∧
      db₁.walletTxs.length = db.walletTxs.length + 1 ∧
      db₂.walletTxs.length = db.walletTxs.length + 2 := by
  obtain ⟨db₁, h1, hb₁, hl₁, hp₁⟩ := handlePaymentSuccess_ok hu hc hpos hp
  obtain ⟨db₂, h2, hb₂, hl₂, hp₂⟩ := handlePaymentSuccess_ok hu hc hpos hp₁
  refine ⟨db₁, db₂, h1, h2, hb₁, ?_, hl₁, ?_⟩
  · rw [hb₂, hb₁]
  · rw [hl₂, hl₁]

/-- Claim C1, witness: the amended theorem applied to the concrete pending
payment of 500 coins: after one delivery alice holds 500 more coins, after
two deliveries 1000 more. -/
theorem c1_witness :
    balCoins (handlePaymentSuccess dbPay evPay).snd "alice" =
      balCoins dbPay "alice" + 500 ∧
    balCoins (handlePaymentSuccess
        (handlePaymentSuccess dbPay evPay).snd evPay).snd "alice" =
      balCoins dbPay "alice" + 500 + 500 := by
  obtain ⟨db₁, db₂, h1, h2, hb₁, hb₂, -, -⟩ := c1_webhook_double_credit
    dbPay evPay "alice" 500 ⟨"alice", "PENDING", false⟩ rfl rfl
    (by decide) (by decide)
  have e1 : (handlePaymentSuccess dbPay evPay).snd = db₁ := by rw [h1]
  have e2 : (handlePaymentSuccess db₁ evPay).snd = db₂ := by rw [h2]
  rw [e1, e2]
  exact ⟨hb₁, hb₂⟩

theorem sendGift_ok_spec (db : DB) (req : SendGiftRequest) (tid : String)
    (g : GiftType) (res : SendGiftResult) (db₁ : DB)
    (hg : lookupKV db.giftTypes req.giftTypeId = some g)
    (hsend : sendGift db req tid = (.ok res, db₁)) :
    req.fromUserId ≠ req.toUserId ∧
    res.platformFee =
      jsRound (((g.priceCoins * req.quantity : Int) : ℚ) *
        platformRate db req.platformId) ∧
    res.socialWalletFee =
      jsRound (((g.priceCoins * req.quantity : Int) : ℚ) * (3 / 200)) ∧
    res.totalCost = g.priceCoins * req.quantity + res.socialWalletFee ∧
    balCoins db₁ req.fromUserId =
      balCoins db req.fromUserId - res.totalCost ∧
    balCoins db₁ req.toUserId = balCoins db req.toUserId +
      (g.priceCoins * req.quantity - res.platformFee -
        res.socialWalletFee) ∧
    db₁.giftTypes =
      (if g.isLimited then
        setKV db.giftTypes req.giftTypeId
          { g with soldQuantity := g.soldQuantity + req.quantity }
      else db.giftTypes) := by
  simp only [sendGift, hg] at hsend
  split at hsend
  · simp at hsend
  rename_i h1
  split at hsend
  · simp at hsend
  split at hsend
  · simp at hsend
  split at hsend
  · simp at hsend
  split at hsend
  · simp at hsend
  cases hdc : deductCoins db req.fromUserId (g.priceCoins * req.quantity + jsRound (((g.priceCoins * req.quantity : Int) : ℚ) * ((3 : ℚ) / 200))) "GIFT_SENT" ("Sent " ++ toString req.quantity ++ "x " ++ g.name ++ " to user") (some "gift_transaction") (some tid) with
  | error e =>
      rw [hdc] at hsend
      simp at hsend
  | ok p =>
      obtain ⟨nb, db₂⟩ := p
      rw [hdc] at hsend
      simp only [] at hsend
      cases hadd : addCoins db₂ req.toUserId (g.priceCoins * req.quantity - jsRound (((g.priceCoins * req.quantity : Int) : ℚ) * platformRate db req.platformId) - jsRound (((g.priceCoins * req.quantity : Int) : ℚ) * ((3 : ℚ) / 200))) "GIFT_RECEIVED" ("Received " ++ toString req.quantity ++ "x " ++ g.name) (some "gift_transaction") (some tid) with
      | error e =>
          rw [hadd] at hsend
          simp at hsend
      | ok q =>
          obtain ⟨nb₂, db₃⟩ := q
          rw [hadd] at hsend
          simp only [] at hsend
          rw [Prod.mk.injEq] at hsend
          obtain ⟨hres, hdb⟩ := hsend
          injection hres with hres
          subst hres
          subst hdb
          obtain ⟨-, -, -, hdFrom, hdOther, -, hdGifts, -, -, -, -, -⟩ :=
            deductCoins_ok_spec hdc
          obtain ⟨-, -, haTo, haOther, -, haGifts, -, -, -, -, -⟩ :=
            addCoins_ok_spec hadd
          refine ⟨h1, rfl, rfl, rfl, ?_, ?_, ?_⟩
          · by_cases hL : g.isLimited = true
            · rw [if_pos hL]
              show balCoins db₃ req.fromUserId = _
              rw [haOther req.fromUserId h1, hdFrom]
            · rw [if_neg hL]
              show balCoins db₃ req.fromUserId = _
              rw [haOther req.fromUserId h1, hdFrom]
          · by_cases hL : g.isLimited = true
            · rw [if_pos hL]
              show balCoins db₃ req.toUserId = _
              rw [haTo, hdOther req.toUserId (Ne.symm h1)]
            · rw [if_neg hL]
              show balCoins db₃ req.toUserId = _
              rw [haTo, hdOther req.toUserId (Ne.symm h1)]
          · by_cases hL : g.isLimited = true
            · rw [if_pos hL, if_pos hL]
              show setKV db₃.giftTypes req.giftTypeId _ = _
              rw [haGifts, hdGifts]
            · rw [if_neg hL, if_neg hL]
              show db₃.giftTypes = _
              rw [haGifts, hdGifts]

theorem sendGift_error_code (db : DB) (req : SendGiftRequest)
    (tid : String) (e : Err) (db₁ : DB)
    (hsend : sendGift db req tid = (.error e, db₁)) :
    e.code = "INVALID_RECIPIENT" ∨ e.code = "INVALID_QUANTITY" ∨
    e.code = "GIFT_NOT_FOUND" ∨ e.code = "GIFT_NOT_AVAILABLE" ∨
    (e.code = "INSUFFICIENT_QUANTITY" ∧
      ∃ g, lookupKV db.giftTypes req.giftTypeId = some g ∧
        g.isLimited = true ∧ maxQuantityTruthy g.maxQuantity = true) ∨
    e.code = "INVALID_AMOUNT" ∨ e.code = "WALLET_NOT_FOUND" ∨
    e.code = "WALLET_LOCKED" ∨ e.code = "INSUFFICIENT_BALANCE" := by
  simp only [sendGift] at hsend
  split at hsend
  · rw [Prod.mk.injEq] at hsend
    obtain ⟨he, -⟩ := hsend
    injection he with he
    subst he
    exact Or.inl rfl
  split at hsend
  · rw [Prod.mk.injEq] at hsend
    obtain ⟨he, -⟩ := hsend
    injection he with he
    subst he
    exact Or.inr (Or.inl rfl)
  split at hsend
  · rw [Prod.mk.injEq] at hsend
    obtain ⟨he, -⟩ := hsend
    injection he with he
    subst he
    exact Or.inr (Or.inr (Or.inl rfl))
  rename_i g hg
  split at hsend
  · rw [Prod.mk.injEq] at hsend
    obtain ⟨he, -⟩ := hsend
    injection he with he
    subst he
    exact Or.inr (Or.inr (Or.inl rfl))
  split at hsend
  · rw [Prod.mk.injEq] at hsend
    obtain ⟨he, -⟩ := hsend
    injection he with he
    subst he
    exact Or.inr (Or.inr (Or.inr (Or.inl rfl)))
  split at hsend
  · rename_i hcond
    rw [Prod.mk.injEq] at hsend
    obtain ⟨he, -⟩ := hsend
    injection he with he
    subst he
    exact Or.inr (Or.inr (Or.inr (Or.inr (Or.inl
      ⟨rfl, g, hg, hcond.1, hcond.2.1⟩))))
  split at hsend
  · rename_i e₂ hdc
    rw [Prod.mk.injEq] at hsend
    obtain ⟨he, -⟩ := hsend
    injection he with he
    subst he
    rcases deductCoins_error_code hdc with h | h | h | h
    · exact Or.inr (Or.inr (Or.inr (Or.inr (Or.inr (Or.inl h)))))
    · exact Or.inr (Or.inr (Or.inr (Or.inr (Or.inr (Or.inr (Or.inl h))))))
    · exact Or.inr (Or.inr (Or.inr (Or.inr (Or.inr (Or.inr (Or.inr
        (Or.inl h)))))))
    · exact Or.inr (Or.inr (Or.inr (Or.inr (Or.inr (Or.inr (Or.inr
        (Or.inr h)))))))
  split at hsend
  · rename_i e₂ hadd
    rw [Prod.mk.injEq] at hsend
    obtain ⟨he, -⟩ := hsend
    injection he with he
    subst he
    obtain ⟨he₂, -⟩ := addCoins_error_code hadd
    subst he₂
    exact Or.inr (Or.inr (Or.inr (Or.inr (Or.inr (Or.inl rfl)))))
  · rw [Prod.mk.injEq] at hsend
    exact absurd hsend.1 (by simp)

/-- Claim C6: on every successful gift send of a gift priced p at quantity
q under platform revenue share r (platformRate applies the default 1/10
when no marketplace row exists or its share is 0), the returned fees
satisfy platform fee = round(pq times r) and social wallet fee =
round(pq times 3/200), the total cost equals pq plus the social wallet
fee, the sender balance drops by exactly that total cost and the receiver
balance rises by exactly pq minus both fees. -/
theorem c6_gift_fee_arithmetic (db : DB) (req : SendGiftRequest)
    (tid : String) (g : GiftType) (r : ℚ) (res : SendGiftResult) (db₁ : DB)
    (hg : lookupKV db.giftTypes req.giftTypeId = some g)
    (hr : platformRate db req.platformId = r)
    (hsend : sendGift db req tid = (.ok res, db₁)) :
    res.platformFee =
      jsRound (((g.priceCoins * req.quantity : Int) : ℚ) * r) ∧
    res.socialWalletFee =
      jsRound (((g.priceCoins * req.quantity : Int) : ℚ) * (3 / 200)) ∧
    res.totalCost = g.priceCoins * req.quantity + res.socialWalletFee ∧
    balCoins db₁ req.fromUserId =
      balCoins db req.fromUserId - res.totalCost ∧
    balCoins db₁ req.toUserId = balCoins db req.toUserId +
      (g.priceCoins * req.quantity - res.platformFee -
        res.socialWalletFee) := by
  obtain ⟨-, hpf, hswf, htc, hfrom, hto, -⟩ :=
    sendGift_ok_spec db req tid g res db₁ hg hsend
  rw [hr] at hpf
  exact ⟨hpf, hswf, htc, hfrom, hto⟩

/-- Claim C6, witness: the spec example scenario: gift priced 100 coins,
revenue share 1/10, quantity 2; the send succeeds with total cost 203,
platform fee 20 and social wallet fee 3, the sender ends 203 coins lower
at 797 and the receiver is credited 177. -/
theorem c6_witness :
    (sendGift dbGiftFees reqGiftFees "t").fst = .ok ⟨203, 20, 3⟩ ∧
    platformRate dbGiftFees "p6" = 1 / 10 ∧
    balCoins (sendGift dbGiftFees reqGiftFees "t").snd "s" = 1000 - 203 ∧
    balCoins (sendGift dbGiftFees reqGiftFees "t").snd "r" =
      0 + (200 - 20 - 3) := by
  have hsr : (("s" : String) = "r") = False := by simp
  have hev : (sendGift dbGiftFees reqGiftFees "t").fst = .ok ⟨203, 20, 3⟩ := by
    norm_num [hsr, sendGift, reqGiftFees, dbGiftFees, emptyDB, lookupKV,
      platformRate, jsRound, maxQuantityTruthy, platformIdTruthy,
      deductCoins, addCoins, setKV, insKV]
  have hsend : sendGift dbGiftFees reqGiftFees "t" =
      (.ok ⟨203, 20, 3⟩, (sendGift dbGiftFees reqGiftFees "t").snd) := by
    rw [← hev]
  have hr : platformRate dbGiftFees "p6" = 1 / 10 := by
    norm_num [platformRate, dbGiftFees, emptyDB, lookupKV]
  obtain ⟨hpf, hswf, htc, hfrom, hto⟩ := c6_gift_fee_arithmetic dbGiftFees
    reqGiftFees "t" ⟨"Rose", none, 100, true, false, none, 0⟩ (1 / 10)
    ⟨203, 20, 3⟩ ((sendGift dbGiftFees reqGiftFees "t").snd) (by decide)
    hr hsend
  have hfrom₂ : balCoins (sendGift dbGiftFees reqGiftFees "t").snd "s" =
      balCoins dbGiftFees "s" - (203 : Int) := hfrom
  have hto₂ : balCoins (sendGift dbGiftFees reqGiftFees "t").snd "r" =
      balCoins dbGiftFees "r" + ((100 : Int) * 2 - 20 - 3) := hto
  refine ⟨hev, hr, ?_, ?_⟩
  · rw [hfrom₂]
    decide
  · rw [hto₂]
    decide

/-- Claim C10: for a gift flagged isLimited with no maxQuantity cap,
sendGift can never fail with INSUFFICIENT_QUANTITY (the stock check
requires a truthy cap), yet every successful send still increments the
soldQuantity of the gift by the requested quantity (the increment requires
only the flag). -/
theorem c10_null_cap_limited (db : DB) (req : SendGiftRequest)
    (tid : String) (g : GiftType)
    (hg : lookupKV db.giftTypes req.giftTypeId = some g)
    (hlim : g.isLimited = true) (hmax : g.maxQuantity = none) :
    (∀ e db₁, sendGift db req tid = (.error e, db₁) →
      e.code ≠ "INSUFFICIENT_QUANTITY") ∧
    (∀ res db₁, sendGift db req tid = (.ok res, db₁) →
      lookupKV db₁.giftTypes req.giftTypeId =
        some { g with soldQuantity := g.soldQuantity + req.quantity }) := by
  constructor
  · intro e db₁ hsend hcode
    rcases sendGift_error_code db req tid e db₁ hsend with
      h | h | h | h | ⟨-, g₂, hg₂, -, hT₂⟩ | h | h | h | h
    · rw [hcode] at h
      exact absurd h (by decide)
    · rw [hcode] at h
      exact absurd h (by decide)
    · rw [hcode] at h
      exact absurd h (by decide)
    · rw [hcode] at h
      exact absurd h (by decide)
    · rw [hg] at hg₂
      injection hg₂ with hgg
      subst hgg
      rw [hmax] at hT₂
      exact absurd hT₂ (by decide)
    · rw [hcode] at h
      exact absurd h (by decide)
    · rw [hcode] at h
      exact absurd h (by decide)
    · rw [hcode] at h
      exact absurd h (by decide)
    · rw [hcode] at h
      exact absurd h (by decide)
  · intro res db₁ hsend
    obtain ⟨-, -, -, -, -, -, hgift⟩ :=
      sendGift_ok_spec db req tid g res db₁ hg hsend
    rw [hgift, if_pos hlim]
    exact lookupKV_setKV_self _ hg

/-- Claim C10, witness: the limited gift gl has no cap and already shows
a million sold; sending 5 succeeds (no INSUFFICIENT_QUANTITY despite the
huge deficit) and the sold count rises to 1000005. -/
theorem c10_witness :
    (sendGift dbGiftNullCap reqGiftNullCap "t").fst = .ok ⟨51, 5, 1⟩ ∧
    lookupKV (sendGift dbGiftNullCap reqGiftNullCap "t").snd.giftTypes
        "gl" =
      some ⟨"Star", none, 10, true, true, none, 1000000 + 5⟩ := by
  have hsr : (("s" : String) = "r") = False := by simp
  have hev : (sendGift dbGiftNullCap reqGiftNullCap "t").fst =
      .ok ⟨51, 5, 1⟩ := by
    norm_num [hsr, sendGift, reqGiftNullCap, dbGiftNullCap, emptyDB,
      lookupKV, platformRate, jsRound, maxQuantityTruthy, platformIdTruthy,
      deductCoins, addCoins, setKV, insKV]
  have hsend : sendGift dbGiftNullCap reqGiftNullCap "t" =
      (.ok ⟨51, 5, 1⟩, (sendGift dbGiftNullCap reqGiftNullCap "t").snd)
      := by
    rw [← hev]
  have h2 := (c10_null_cap_limited dbGiftNullCap reqGiftNullCap "t"
    ⟨"Star", none, 10, true, true, none, 1000000⟩ (by decide) rfl rfl).2
    ⟨51, 5, 1⟩ ((sendGift dbGiftNullCap reqGiftNullCap "t").snd) hsend
  exact ⟨hev, h2⟩

/-- Claim C2: evaluation of the code at the failing input.  In dbGiftBug
the marketplace share is 1 (accepted by the admin validation), the gift
costs 100 and the sender holds exactly the 102-coin total.  The send
fails (the receiver credit comes out to -2, which addCoins rejects), yet
the returned store shows the sender debited from 102 down to 0 with a
ledger row written, while the receiver got nothing, no audit row exists
and the gift row is untouched: the debit committed on the global client
and the outer transaction could not roll it back, refuting the
all-or-nothing claim. -/
theorem c2_atomicity_violation :
    (sendGift dbGiftBug reqGiftBug "t").fst =
      .error (createError "Amount must be positive" 400 "INVALID_AMOUNT") ∧
    balCoins dbGiftBug "s" = 102 ∧
    balCoins (sendGift dbGiftBug reqGiftBug "t").snd "s" = 0 ∧
    (sendGift dbGiftBug reqGiftBug "t").snd.walletTxs.length = 1 ∧
    balCoins (sendGift dbGiftBug reqGiftBug "t").snd "r" = 0 ∧
    (sendGift dbGiftBug reqGiftBug "t").snd.giftTxs = [] ∧
    lookupKV (sendGift dbGiftBug reqGiftBug "t").snd.giftTypes "g" =
      some ⟨"Rose", none, 100, true, false, none, 0⟩ := by
  have hsr : (("s" : String) = "r") = False := by simp
  norm_num [hsr, sendGift, reqGiftBug, dbGiftBug, emptyDB, lookupKV,
    platformRate, jsRound, maxQuantityTruthy, platformIdTruthy,
    deductCoins, addCoins, setKV, insKV, balCoins, createError,
    createErrorD]

end SocialWallet
